import Mathlib

/-!
Verification of the batch provisioning pipeline in `testing/AutoLoadPlan.py`.

The external planning system (database queries, entity handles, beam
placement, planning-structure generation) is abstracted as an oracle:
each query outcome is a field of the `DB` / `RowIn` structures below, and
the definitions mirror, branch for branch, the control flow of the Python
source.  Exceptions that the source lets escape are modelled with
`Except Unit` (`.error ()` = an uncaught exception), and the two
potentially unbounded loops of the source (the name-collision loop and
the target-column loop) take an explicit fuel argument.
-/

set_option maxRecDepth 4096

/-- Python `str(n).zfill(2)`: decimal representation left-padded with a
zero to width two.  Used both for the `Target01`, `TargetDose01`, ...
column keys and for the random beamset-name suffix. -/
def zfill2 (r : Nat) : String :=
  let s := toString r
  if s.length < 2 then "0" ++ s else s

/-- Python `str` of a bool: `True` / `False`. -/
def pyBool (b : Bool) : String :=
  if b then "True" else "False"

/-- A single quote character (`chr 39`), for Python `repr` of strings. -/
def pyQuoteChar : String := String.singleton (Char.ofNat 39)

/-- Python `repr` of a string (single-quoted, no escaping needed for the
messages this script produces). -/
def pyQuote (s : String) : String := pyQuoteChar ++ s ++ pyQuoteChar

/-- Python `str` of a list of strings, as produced by
`str(patient_data['Error'])` when the driver writes an error status. -/
def pyReprList (l : List String) : String :=
  "[" ++ String.intercalate (", ") (l.map pyQuote) ++ "]"

/-! ## `merge_dict` (AutoLoadPlan.py lines 213-234) -/

/-- A pandas cell value as far as `merge_dict` observes it: a NaN, a
number, or a string. -/
inductive Cell where
  | nan : Cell
  | num : Int → Cell
  | str : String → Cell
deriving DecidableEq, Repr

/-- `np.isnan` applied to a cell: true on NaN, false on a number, and a
`TypeError` (uncaught, modelled as `.error ()`) on a string. -/
def isnanCell : Cell → Except Unit Bool
  | .nan => .ok true
  | .num _ => .ok false
  | .str _ => .error ()

/-- The column key `'Target' + str(k).zfill(2)`. -/
def tKey (k : Nat) : String := "Target" ++ zfill2 k

/-- The column key `'TargetDose' + str(k).zfill(2)`. -/
def tdKey (k : Nat) : String := "TargetDose" ++ zfill2 k

/-- Python dict assignment `d[k] = v` on an insertion-ordered
association list: overwrite in place if the key is present, else append. -/
def dictInsert (d : List (Cell × Cell)) (k v : Cell) : List (Cell × Cell) :=
  if k ∈ d.map Prod.fst then
    d.map (fun kv => if kv.1 = k then (k, v) else kv)
  else
    d ++ [(k, v)]

/-- Result of the `merge_dict` while-loop. -/
inductive MergeRes where
  | out : List (Cell × Cell) → MergeRes
  | exn : MergeRes
  | fuelOut : MergeRes
deriving DecidableEq, Repr

/-- The body of `merge_dict`'s `while target_column_exists` loop
(lines 225-233).  `row` is the pandas row as a finite column map, `tc`
is `target_columns`, `d` is `target_dict`.  Each iteration looks up
`row[target_dose]` (a `KeyError`, i.e. a missing key, ends the loop),
tests `np.isnan`, and on a non-NaN dose looks up `row[target_name]`
(again a `KeyError` ends the loop) and assigns into the dict. -/
def mergeGo (row : List (String × Cell)) : Nat → Nat → List (Cell × Cell) → MergeRes
  | 0, _, _ => .fuelOut
  | fuel+1, tc, d =>
    match List.lookup (tdKey (tc+1)) row with
    | none => .out d
    | some dv =>
      match isnanCell dv with
      | .error () => .exn
      | .ok true => mergeGo row fuel (tc+1) d
      | .ok false =>
        match List.lookup (tKey (tc+1)) row with
        | none => .out d
        | some nv => mergeGo row fuel (tc+1) (dictInsert d nv dv)

/-- `merge_dict` (lines 213-234): starts with `target_columns = 0` and an
empty dict. -/
def merge_dict (row : List (String × Cell)) (fuel : Nat) : MergeRes :=
  mergeGo row fuel 0 []

/-! ## `load_patient_data` (AutoLoadPlan.py lines 124-211) -/

/-- Oracle for the external patient database, one snapshot per call:
the sizes and contents of the query results and whether the indexed handle
lookups succeed. -/
structure DB where
  /-- number of records returned by `QueryPatientInfo` for the identity filter -/
  patientMatchCount : Nat
  /-- whether `patient.Cases[case_name]` succeeds (else `SystemError`) -/
  caseExists : Bool
  /-- names returned by `QueryExaminationInfo` (in order) -/
  examNames : List String
  /-- names returned by `QueryPlanInfo` (in order) -/
  planNames : List String
  /-- whether `case.TreatmentPlans[plan_name]` succeeds before any `AddNewPlan` -/
  tpHasPlan : Bool
  /-- whether `AddNewPlan` itself succeeds -/
  addPlanOk : Bool
  /-- whether `case.TreatmentPlans[plan_name]` succeeds after `AddNewPlan` -/
  tpHasPlanAfterAdd : Bool
deriving DecidableEq, Repr

/-- The `patient_data` dict returned by `load_patient_data`: the error
list plus, for each of the four handles, whether it is set (non-`None`). -/
structure PatientData where
  error : List String
  patient : Bool
  cse : Bool
  exam : Bool
  plan : Bool
deriving DecidableEq, Repr

/-- The `except IndexError` handler of the plan block (lines 194-204):
`AddNewPlan(..., ExaminationName=exam.Name, ...)` reads the local
variable `exam`, which is bound only when the exam query's first name
matched (line 182) — otherwise an `UnboundLocalError` escapes.  A
failing `AddNewPlan` or a failing re-fetch of the created plan
(line 202, inside the handler, hence uncaught) also escapes.  On
success the `Plan` handle is set. -/
def addPlanBranch (db : DB) (examBound : Bool) : Except Unit Bool :=
  if examBound = false then .error ()
  else if db.addPlanOk = false then .error ()
  else if db.tpHasPlanAfterAdd = false then .error ()
  else .ok true

/-- The plan block (lines 188-204): the plan query, the first-name
equality check, the handle fetch inside the `try` (whose `IndexError`
also lands in the handler), and the `AddNewPlan` handler.  Returns
(plan handle set, `AddNewPlan` was run). -/
def planPhase (db : DB) (examBound : Bool) (plan_name : String) : Except Unit (Bool × Bool) :=
  match db.planNames with
  | [] => (addPlanBranch db examBound).map (fun b => (b, true))
  | m :: _ =>
    if m = plan_name then
      if db.tpHasPlan then .ok (true, false)
      else (addPlanBranch db examBound).map (fun b => (b, true))
    else .ok (false, false)

/-- `load_patient_data` (lines 124-211).  Returns `.error ()` when an
exception escapes the function, else the resulting `patient_data`.
The stages, in source order:
patient query (exactly one match required, lines 148-159); case handle
(lines 166-171); exam query with first-name equality check
(lines 174-186, an empty result raises `IndexError` into the
`'Exam ... not found'` branch, a non-matching first name silently skips
binding the exam); the plan block; final retrievability check
(lines 205-209, reading `TreatmentPlans[plan_name]` in the state the
plan block left behind). -/
def load_patient_data (db : DB) (patient_id first_name last_name case_name exam_name plan_name : String) :
    Except Unit PatientData :=
  if db.patientMatchCount ≠ 1 then
    .ok { error := ["Patient " ++ first_name ++ " " ++ last_name ++ ", ID: " ++ patient_id ++ " not found"],
          patient := false, cse := false, exam := false, plan := false }
  else if db.caseExists = false then
    .ok { error := ["Case " ++ case_name ++ " not found"],
          patient := true, cse := false, exam := false, plan := false }
  else
    match db.examNames with
    | [] =>
      .ok { error := ["Exam " ++ exam_name ++ " not found"],
            patient := true, cse := true, exam := false, plan := false }
    | n :: _ =>
      match planPhase db (n == exam_name) plan_name with
      | .error () => .error ()
      | .ok (planSet, added) =>
        if (if added then db.tpHasPlanAfterAdd else db.tpHasPlan) then
          .ok { error := [], patient := true, cse := true, exam := (n == exam_name), plan := planSet }
        else
          .ok { error := ["Plan " ++ plan_name ++ " not found"],
                patient := true, cse := true, exam := (n == exam_name), plan := planSet }

/-! ## `output_status` (AutoLoadPlan.py lines 57-121) -/

/-- The arguments of one `output_status` call (the `path` parameter is
overwritten at line 80 and the file name is a function of the input file
name alone, so the file itself is the ambient state here). -/
structure StatusArgs where
  patientId : String
  caseName : String
  planName : String
  beamsetName : String
  patientLoad : Bool
  planningStructs : Bool
  beamsLoad : Bool
  clinicalGoalsLoad : Bool
  planOptLoad : Bool
  optComplete : Bool
  scriptStatus : Option String
deriving DecidableEq, Repr

/-- The header line written on first creation (lines 90-102, without the
trailing newline — the file is modelled as a list of lines). -/
def headerLine : String :=
  "PatientID" ++ ",\t" ++ "Case" ++ ",\t" ++ "Plan" ++ ",\t" ++ "Beamset" ++ ",\t"
    ++ "Patient Loaded" ++ ",\t" ++ "Planning Structs Loaded" ++ ",\t"
    ++ "Beams Loaded" ++ ",\t" ++ "Clinical Goals Loaded" ++ ",\t"
    ++ "Optimization Strategy Loaded" ++ ",\t" ++ "Optimization Completed" ++ ",\t"
    ++ "Plan Complete"

/-- The eleven cells of one data line, in column order; the status cell
is the literal `success` when no explicit status is set (lines 106-107). -/
def auditCells (a : StatusArgs) : List String :=
  [a.patientId, a.caseName, a.planName, a.beamsetName,
   pyBool a.patientLoad, pyBool a.planningStructs, pyBool a.beamsLoad,
   pyBool a.clinicalGoalsLoad, pyBool a.planOptLoad, pyBool a.optComplete,
   a.scriptStatus.getD ("success")]

/-- The data line written for one row (lines 108-120, without the
trailing newline), exactly the source's concatenation. -/
def dataLine (a : StatusArgs) : String :=
  a.patientId ++ ",\t" ++ a.caseName ++ ",\t" ++ a.planName ++ ",\t"
    ++ a.beamsetName ++ ",\t" ++ pyBool a.patientLoad ++ ",\t"
    ++ pyBool a.planningStructs ++ ",\t" ++ pyBool a.beamsLoad ++ ",\t"
    ++ pyBool a.clinicalGoalsLoad ++ ",\t" ++ pyBool a.planOptLoad ++ ",\t"
    ++ pyBool a.optComplete ++ ",\t" ++ a.scriptStatus.getD ("success")

/-- `output_status` on the audit file, modelled as its list of lines
(`[]` = missing or empty file).  A missing or empty file first gets the
header (mode `w+`, lines 83-103); then one data line is appended
(mode `a+`, lines 105-121). -/
def output_status (lines : List String) (a : StatusArgs) : List String :=
  (if lines = [] then [headerLine] else lines) ++ [dataLine a]

/-! ## Name Collision Resolver (AutoLoadPlan.py lines 303-314) -/

/-- Python `name[:14]`: the first fourteen characters. -/
def strTake (s : String) (n : Nat) : String := String.mk (s.data.take n)

/-- One mutation of the candidate (lines 309-312): append
`str(random.randint(1,99)).zfill(2)`, replacing the trailing characters
beyond position 14 first when the candidate is longer than 14. -/
def mutateName (name : String) (r : Nat) : String :=
  if name.length > 14 then strTake name 14 ++ zfill2 r else name ++ zfill2 r

/-- Whether `cand` starts `s` (character-level prefix test). -/
def beginsWith (cand s : String) : Bool := cand.data.isPrefixOf s.data

/-- `plan.QueryBeamSetInfo(Filter={'Name': '^' + name})`: the existing
beamset names having the candidate as a prefix, in namespace order. -/
def nameMatches (existing : List String) (cand : String) : List String :=
  existing.filter (fun s => beginsWith cand s)

/-- The `while beamset_exists` loop (lines 304-314) with explicit fuel
and an explicit stream of `random.randint(1,99)` draws.  An empty query
result raises `IndexError` and ends the loop (the candidate is kept);
a first result equal to the candidate mutates the candidate and loops;
a first result that merely extends the candidate changes nothing and
loops again on identical state (the source loop then never exits). -/
def resolveBeamsetName : Nat → List String → List Nat → String → Option (String × List Nat)
  | 0, _, _, _ => none
  | fuel+1, existing, rands, name =>
    match nameMatches existing name with
    | [] => some (name, rands)
    | m :: _ =>
      if m = name then
        match rands with
        | [] => none
        | r :: rs => resolveBeamsetName fuel existing rs (mutateName name r)
      else
        resolveBeamsetName fuel existing rands name

/-! ## The Batch Driver (AutoLoadPlan.py `main`, lines 238-584) -/

/-- One input row together with the oracle outcomes of the external
calls the driver makes for it (in the order the source makes them). -/
structure RowIn where
  patientId : String
  firstName : String
  lastName : String
  caseName : String
  examName : String
  planName : String
  /-- `row.BeamsetName`, the desired beamset name -/
  beamsetName : String
  /-- `row.Isotarget` -/
  isoTarget : String
  /-- outcomes of the `load_patient_data` queries for this row -/
  db : DB
  /-- existing beamset names seen by `QueryBeamSetInfo` -/
  existingBeamsets : List String
  /-- whether `select_element(...)[0]` (lines 320-328) raises
  (template not found: an empty result makes the `[0]` raise) -/
  templateRaises : Bool
  /-- `beamset_etree.find('technique').text` (line 340) -/
  technique : String
  /-- whether `BeamOperations.create_beamset` (lines 345-351) raises -/
  createRaises : Bool
  /-- `len(beams)` from `load_beams_xml` (lines 356-358) -/
  numBeams : Nat
  /-- whether `find_isocenter_parameters` (lines 362-367) succeeds -/
  isoOk : Bool
deriving Repr

/-- Driver state threaded across rows: the audit-file lines, whether the
function-scoped local `beam` is currently bound (it survives from row to
row, line 376), and the remaining random draws. -/
structure DSt where
  log : List String
  beamBound : Bool
  rands : List Nat
deriving DecidableEq, Repr

/-- How one row ends. -/
inductive RowRes where
  | next : DSt → RowRes
  | isoAbort : DSt → String → RowRes
  | crash : DSt → RowRes
  | stuck : DSt → RowRes
deriving DecidableEq, Repr

/-- The `output_status` arguments of the entity-resolution failure
branch (lines 276-290): original desired beamset name, all flags still
false, the error list passed through Python `str`. -/
def errArgs (r : RowIn) (errs : List String) : StatusArgs :=
  { patientId := r.patientId, caseName := r.caseName, planName := r.planName,
    beamsetName := r.beamsetName, patientLoad := false, planningStructs := false,
    beamsLoad := false, clinicalGoalsLoad := false, planOptLoad := false,
    optComplete := false, scriptStatus := some (pyReprList errs) }

/-- The `output_status` arguments of the `if not beams_load` branch
(lines 388-403): resolved beamset name, `patient_load=True`, all other
flags false, `script_status=None`. -/
def noBeamsArgs (r : RowIn) (resolvedName : String) : StatusArgs :=
  { patientId := r.patientId, caseName := r.caseName, planName := r.planName,
    beamsetName := resolvedName, patientLoad := true, planningStructs := false,
    beamsLoad := false, clinicalGoalsLoad := false, planOptLoad := false,
    optComplete := false, scriptStatus := none }

/-- One iteration of the `for index, row in plan_data.iterrows()` loop
(lines 252-583).  Stage order as in the source: entity resolution
(line 265, an escaping exception crashes the run); on a non-empty error
list one audit record and `continue` (lines 274-291); the name-collision
loop (lines 303-314); template selection (raises → crash, lines
320-328); beamset creation (raises → crash, lines 345-351); isocenter
placement (failure → `sys.exit`, lines 360-370, after the warning
naming the target); technique dispatch (lines 372-387) where the
`TomoHelical` arm always runs `place_tomo_beam_in_beamset` — with the
unbound local `beam` when more than one beam was found and no earlier
row bound it (`NameError` → crash), and with `beams[0]` raising when the
list is empty — and always sets `beams_load = True` when it returns;
then the `if not beams_load` audit-and-continue (lines 388-404); the
planning-structure stage (lines 406-570) never writes the audit file
nor sets `planning_structs` to true, so it leaves the driver state
unchanged here; finally `continue` (line 583). -/
def processRow (fuel : Nat) (st : DSt) (r : RowIn) : RowRes :=
  match load_patient_data r.db r.patientId r.firstName r.lastName r.caseName r.examName r.planName with
  | .error () => .crash st
  | .ok pd =>
    if pd.error ≠ [] then
      .next { st with log := output_status st.log (errArgs r pd.error) }
    else
      match resolveBeamsetName fuel r.existingBeamsets st.rands r.beamsetName with
      | none => .stuck st
      | some (bsName, rands') =>
        if r.templateRaises then .crash { st with rands := rands' }
        else if r.createRaises then .crash { st with rands := rands' }
        else if r.isoOk = false then
          .isoAbort { st with rands := rands' }
            ("Aborting, could not locate center of " ++ r.isoTarget)
        else if r.technique = "TomoHelical" then
          if r.numBeams > 1 then
            if st.beamBound then
              .next { log := st.log, beamBound := st.beamBound, rands := rands' }
            else
              .crash { st with rands := rands' }
          else if r.numBeams = 1 then
            .next { log := st.log, beamBound := true, rands := rands' }
          else
            .crash { st with rands := rands' }
        else if r.technique = "VMAT" then
          .next { log := st.log, beamBound := st.beamBound, rands := rands' }
        else
          .next { log := output_status st.log (noBeamsArgs r bsName),
                  beamBound := st.beamBound, rands := rands' }

/-- The outcome of a whole run of `main`'s row loop. -/
inductive RunOut where
  | done : List String → RunOut
  | isoFail : List String → String → RunOut
  | crashed : List String → RunOut
  | stuckOut : List String → RunOut
deriving DecidableEq, Repr

/-- The row loop itself: `sys.exit('Done')` after the last row
(line 584), `sys.exit('Failed to place isocenter')` on isocenter
failure, and propagation of uncaught exceptions. -/
def runRows (fuel : Nat) : DSt → List RowIn → RunOut
  | st, [] => .done st.log
  | st, r :: rest =>
    match processRow fuel st r with
    | .next st' => runRows fuel st' rest
    | .isoAbort st' msg => .isoFail st'.log msg
    | .crash st' => .crashed st'.log
    | .stuck st' => .stuckOut st'.log

/-- A batch run from a fresh state: empty audit file, no bound `beam`. -/
def runMain (fuel : Nat) (rands : List Nat) (rows : List RowIn) : RunOut :=
  runRows fuel { log := [], beamBound := false, rands := rands } rows

/-! ## Concrete fixtures used by witnesses and counterexamples -/

/-- A database snapshot on which every lookup of `load_patient_data`
succeeds at the names used by `baseRow`. -/
def okDB : DB :=
  { patientMatchCount := 1, caseExists := true, examNames := ["CT1"],
    planNames := ["Pl1"], tpHasPlan := true, addPlanOk := true,
    tpHasPlanAfterAdd := true }

/-- A row whose every external call succeeds: entity resolution finds
everything, the beamset name is free, the template resolves to `VMAT`
with two beams, and the isocenter is located. -/
def baseRow : RowIn :=
  { patientId := "1234", firstName := "Ann", lastName := "Lee",
    caseName := "Case1", examName := "CT1", planName := "Pl1",
    beamsetName := "BSet", isoTarget := "All_PTVs", db := okDB,
    existingBeamsets := [], templateRaises := false, technique := "VMAT",
    createRaises := false, numBeams := 2, isoOk := true }

/-- A row whose case lookup fails: the entity resolver returns the error
list `['Case Case1 not found']` and the driver audits and continues. -/
def failRow : RowIn := { baseRow with db := { okDB with caseExists := false } }

/-! ## C8 -/

/-- C8: a first `output_status` call on a fresh or empty file produces
the header line followed by exactly one data line; a call on a non-empty
file appends exactly one data line and nothing else (in particular no
second header); and the status column of a data line is the literal
`success` whenever no explicit status message is set. -/
theorem c8_audit_log (a : StatusArgs) (l : List String) :
    output_status [] a = [headerLine, dataLine a]
      ∧ (l ≠ [] → output_status l a = l ++ [dataLine a])
      ∧ (a.scriptStatus = none → (auditCells a).getLast? = some ("success")) := by
  refine ⟨rfl, fun h => ?_, fun h => ?_⟩
  · simp [output_status, h]
  · simp [auditCells, h]

/-- Arguments with no explicit status, for the C8 witness. -/
def wArgs : StatusArgs :=
  { patientId := "1234", caseName := "Case1", planName := "Pl1",
    beamsetName := "BSet", patientLoad := true, planningStructs := false,
    beamsLoad := false, clinicalGoalsLoad := false, planOptLoad := false,
    optComplete := false, scriptStatus := none }

/-- Witness for C8 at a concrete non-empty file and concrete arguments. -/
theorem c8_audit_log_witness :
    output_status ["x"] wArgs = ["x"] ++ [dataLine wArgs]
      ∧ (auditCells wArgs).getLast? = some ("success") :=
  ⟨(c8_audit_log wArgs ["x"]).2.1 (by decide), (c8_audit_log wArgs ["x"]).2.2 rfl⟩

/-! ## C10 -/

/-- C10: a row that reaches beam placement with a technique that is
neither `TomoHelical` nor `VMAT` gets exactly one audit record whose
status cell is the literal `success` (the driver passes a null status,
which `output_status` replaces) even though the beams-loaded cell of
the same record is `False`, and the driver then moves to the next row. -/
theorem c10_unsupported_reports_success (fuel : Nat) (st : DSt) (r : RowIn)
    (pd : PatientData) (nm : String) (rands' : List Nat)
    (hld : load_patient_data r.db r.patientId r.firstName r.lastName r.caseName r.examName r.planName = .ok pd)
    (he : pd.error = [])
    (hnm : resolveBeamsetName fuel r.existingBeamsets st.rands r.beamsetName = some (nm, rands'))
    (htpl : r.templateRaises = false) (hcr : r.createRaises = false)
    (hiso : r.isoOk = true)
    (ht1 : r.technique ≠ "TomoHelical") (ht2 : r.technique ≠ "VMAT") :
    processRow fuel st r =
      .next { log := output_status st.log (noBeamsArgs r nm),
              beamBound := st.beamBound, rands := rands' }
      ∧ (noBeamsArgs r nm).scriptStatus = none
      ∧ (auditCells (noBeamsArgs r nm)).getLast? = some ("success")
      ∧ (noBeamsArgs r nm).beamsLoad = false
      ∧ (auditCells (noBeamsArgs r nm)).get? 6 = some ("False") := by
  unfold processRow
  rw [hld]
  simp [he, hnm, htpl, hcr, hiso, ht1, ht2, noBeamsArgs, auditCells, pyBool]

/-- A row with the unsupported technique `Tomo3D`. -/
def unsupRow : RowIn := { baseRow with technique := "Tomo3D" }

/-- Witness for C10: the unsupported-technique row, concrete driver state. -/
theorem c10_unsupported_reports_success_witness :
    processRow 1 { log := ["x"], beamBound := false, rands := [] } unsupRow =
      .next { log := output_status ["x"] (noBeamsArgs unsupRow "BSet"),
              beamBound := false, rands := [] }
      ∧ (noBeamsArgs unsupRow "BSet").scriptStatus = none
      ∧ (auditCells (noBeamsArgs unsupRow "BSet")).getLast? = some ("success")
      ∧ (noBeamsArgs unsupRow "BSet").beamsLoad = false
      ∧ (auditCells (noBeamsArgs unsupRow "BSet")).get? 6 = some ("False") :=
  c10_unsupported_reports_success 1 { log := ["x"], beamBound := false, rands := [] }
    unsupRow { error := [], patient := true, cse := true, exam := true, plan := true }
    "BSet" [] rfl rfl rfl rfl rfl rfl (by decide) (by decide)


/-! ## C3 -/

/-- The invariant claimed for every returned PatientContext, as the spec
words it: either the error list is non-empty and all four handles are
unset, or the error list is empty and all four handles are set. -/
def contextInvariant (pd : PatientData) : Prop :=
  (pd.error ≠ [] ∧ pd.patient = false ∧ pd.cse = false ∧ pd.exam = false ∧ pd.plan = false)
    ∨ (pd.error = [] ∧ pd.patient = true ∧ pd.cse = true ∧ pd.exam = true ∧ pd.plan = true)

instance (pd : PatientData) : Decidable (contextInvariant pd) := by
  unfold contextInvariant; infer_instance

/-- Counterexample to C3: when the patient is found but the case lookup
fails, the resolver returns a context with a non-empty error list and
the patient handle still set — a partial context. -/
theorem c3_counterexample :
    load_patient_data { okDB with caseExists := false } "1234" "Ann" "Lee" "Case1" "CT1" "Pl1"
        = .ok { error := ["Case Case1 not found"], patient := true, cse := false,
                exam := false, plan := false }
      ∧ ¬ contextInvariant { error := ["Case Case1 not found"], patient := true,
                             cse := false, exam := false, plan := false } := by
  constructor
  · rfl
  · decide

/-- Helper for C3: whenever the plan block returns normally but the
final `TreatmentPlans[plan_name]` check fails, the `Plan` handle was
never set. -/
theorem planPhase_notfound (db : DB) (eb : Bool) (pn : String) (ps ad : Bool)
    (heq : planPhase db eb pn = .ok (ps, ad))
    (hc : (if ad = true then db.tpHasPlanAfterAdd else db.tpHasPlan) = false) :
    ps = false := by
  obtain ⟨pmc, ce, exl, pll, tp, ap, tpa⟩ := db
  rcases pll with _ | ⟨m, mtl⟩
  · cases eb <;> cases ap <;> cases tpa <;> cases ad <;>
      simp_all [planPhase, addPlanBranch, Except.map]
  · by_cases hm : m = pn
    · cases tp <;> cases eb <;> cases ap <;> cases tpa <;> cases ad <;>
        simp_all [planPhase, addPlanBranch, Except.map]
    · cases ad <;> simp_all [planPhase, addPlanBranch, Except.map]

/-- C3 as amended: every non-crashing call of the resolver returns a
context in which an empty error list guarantees the patient and case
handles are set, a non-empty error list guarantees the plan handle is
unset, and handles are downward-closed along the lookup order (exam set
implies case set, plan set implies patient set).  Handles resolved
before a failing stage may remain set (never all four unset with an
error), and the exam handle may be unset with an empty error list when
the exam query's first result name mismatches — so the claimed
all-or-nothing invariant does not hold. -/
theorem c3_amended (db : DB) (pid fn ln cn en pn : String) (pd : PatientData)
    (h : load_patient_data db pid fn ln cn en pn = .ok pd) :
    (pd.error = [] → pd.patient = true ∧ pd.cse = true)
      ∧ (pd.error ≠ [] → pd.plan = false)
      ∧ (pd.exam = true → pd.cse = true)
      ∧ (pd.plan = true → pd.patient = true) := by
  unfold load_patient_data at h
  split at h
  · injection h with h; subst h; simp
  · split at h
    · injection h with h; subst h; simp
    · split at h
      · injection h with h; subst h; simp
      · split at h
        · exact absurd h (by simp)
        · rename_i n tl planPair planSet added heq
          split at h
          · rename_i hadd
            split at h
            · injection h with h; subst h; simp
            · rename_i htpa
              injection h with h; subst h
              refine ⟨by simp, fun _ => ?_, by simp, by simp⟩
              exact planPhase_notfound _ _ _ _ _ heq (by simp [hadd, Bool.not_eq_true] at htpa ⊢; exact htpa)
          · rename_i hadd
            split at h
            · injection h with h; subst h; simp
            · rename_i htp
              injection h with h; subst h
              refine ⟨by simp, fun _ => ?_, by simp, by simp⟩
              have hadd' : added = false := by
                cases added
                · rfl
                · exact absurd rfl hadd
              exact planPhase_notfound _ _ _ _ _ heq
                (by simp [hadd', Bool.not_eq_true] at htp ⊢; exact htp)

/-- Witness for C3 as amended, at a database whose case lookup fails. -/
theorem c3_amended_witness :
    ({ error := ["Case Case1 not found"], patient := true, cse := false,
       exam := false, plan := false } : PatientData).plan = false :=
  (c3_amended { okDB with caseExists := false } "1234" "Ann" "Lee" "Case1" "CT1" "Pl1"
    { error := ["Case Case1 not found"], patient := true, cse := false,
      exam := false, plan := false } rfl).2.1 (by decide)

/-! ## C4 -/

/-- Counterexample to C4: with an exam query whose first result is named
`Other` while the requested exam is `CT1`, the resolver records no
`Exam CT1 not found` failure (the error list stays empty), leaves the
exam handle unset, and the plan stage still runs (the plan handle is
set). -/
theorem c4_counterexample :
    load_patient_data { okDB with examNames := ["Other"] } "1234" "Ann" "Lee" "Case1" "CT1" "Pl1"
        = .ok { error := [], patient := true, cse := true, exam := false, plan := true }
      ∧ ¬ ("Exam CT1 not found" ∈ ([] : List String)) := by
  exact ⟨rfl, by decide⟩

/-- C4 as amended: the message `Exam {name} not found` is recorded
exactly when the exam query returns no results.  When the first result
exists but its name differs from the requested exam name, no error is
recorded and the resolver proceeds to the plan lookup with the exam
handle unset: any normally returned context then has `exam` unset and
an error list that is either empty or the plan-not-found message, and
if the plan query is empty the subsequent creation path reads the
unbound local `exam` and the call crashes. -/
theorem c4_amended (db : DB) (pid fn ln cn en pn : String)
    (h1 : db.patientMatchCount = 1) (h2 : db.caseExists = true) :
    (db.examNames = [] →
      load_patient_data db pid fn ln cn en pn =
        .ok { error := ["Exam " ++ en ++ " not found"], patient := true, cse := true,
              exam := false, plan := false })
      ∧ (∀ n tl, db.examNames = n :: tl → (n == en) = false →
          (∀ pd, load_patient_data db pid fn ln cn en pn = .ok pd →
            pd.exam = false ∧ (pd.error = [] ∨ pd.error = ["Plan " ++ pn ++ " not found"]))
          ∧ (db.planNames = [] → load_patient_data db pid fn ln cn en pn = .error ())) := by
  constructor
  · intro hex
    simp [load_patient_data, h1, h2, hex]
  · intro n tl hex hne
    constructor
    · intro pd h
      simp only [load_patient_data, h1, h2, hex] at h
      simp only [hne] at h
      simp at h
      split at h
      · simp at h
      · rename_i ps ad heq
        split at h <;> split at h <;>
          (injection h with h; subst h) <;>
          first
          | exact ⟨rfl, Or.inl rfl⟩
          | exact ⟨rfl, Or.inr rfl⟩
    · intro hpn
      simp [load_patient_data, h1, h2, hex, hne, planPhase, hpn, addPlanBranch, Except.map]

/-- Witness for C4 as amended: exam-name mismatch with an empty plan
query makes the whole resolver call crash (reaching the plan-creation
stage, well past the exam stage). -/
theorem c4_amended_witness :
    load_patient_data { okDB with examNames := ["Other"], planNames := [] }
        "1234" "Ann" "Lee" "Case1" "CT1" "Pl1" = .error () :=
  ((c4_amended { okDB with examNames := ["Other"], planNames := [] }
    "1234" "Ann" "Lee" "Case1" "CT1" "Pl1" rfl rfl).2 "Other" [] rfl (by decide)).2 rfl

/-! ## C1 -/

/-- Whether a row that the driver finishes (moving on to the next row)
writes an audit record: exactly the rows whose entity resolution returns
a non-empty error list, plus the rows whose technique is neither
`TomoHelical` nor `VMAT` (the `if not beams_load` branch). -/
def rowAudits (r : RowIn) : Bool :=
  match load_patient_data r.db r.patientId r.firstName r.lastName r.caseName r.examName r.planName with
  | .error () => false
  | .ok pd => !pd.error.isEmpty || (r.technique != "TomoHelical" && r.technique != "VMAT")

/-- Counterexample to C1: a fully successful row — the patient loads,
the `VMAT` beams are placed, every stage succeeds — produces no audit
record at all: the run completes with an empty audit file, not the one
record per row the claim requires. -/
theorem c1_counterexample : runMain 1 [] [baseRow] = .done [] := by decide

/-- C1 as amended: whenever the driver finishes a row and moves to the
next one (with the audit file already non-empty, so only data lines are
appended), exactly one audit record is appended if the row failed
entity resolution or ended beam placement with `beams_load` false, and
no record at all is appended otherwise — in particular a fully
successful row yields zero audit records, contrary to the claim. -/
theorem c1_audit_per_row (fuel : Nat) (st : DSt) (r : RowIn) (st' : DSt)
    (h : processRow fuel st r = .next st') (hlog : st.log ≠ []) :
    st'.log.length = st.log.length + (if rowAudits r then 1 else 0) := by
  unfold processRow at h
  split at h
  · exact absurd h (by simp)
  · rename_i pd hld
    have hra : rowAudits r
        = (!pd.error.isEmpty || (r.technique != "TomoHelical" && r.technique != "VMAT")) := by
      unfold rowAudits
      rw [hld]
    rw [hra]
    split at h
    · rename_i he
      cases herr : pd.error with
      | nil => exact absurd herr he
      | cons a t =>
        injection h with h
        subst h
        simp [herr, output_status, hlog]
    · rename_i he
      have he' : pd.error = [] := by
        by_contra hc
        exact he hc
      split at h
      · exact absurd h (by simp)
      · rename_i p nm rands' hnm
        split at h
        · exact absurd h (by simp)
        · rename_i htpl
          split at h
          · exact absurd h (by simp)
          · rename_i hcr
            split at h
            · exact absurd h (by simp)
            · rename_i hiso
              split at h
              · rename_i ht1
                split at h
                · split at h
                  · injection h with h
                    subst h
                    simp [he', ht1]
                  · exact absurd h (by simp)
                · split at h
                  · injection h with h
                    subst h
                    simp [he', ht1]
                  · exact absurd h (by simp)
              · rename_i ht1
                split at h
                · rename_i ht2
                  injection h with h
                  subst h
                  simp [he', ht2]
                · rename_i ht2
                  injection h with h
                  subst h
                  have hb1 : (r.technique != "TomoHelical") = true := by
                    simp [bne_iff_ne]
                    exact ht1
                  have hb2 : (r.technique != "VMAT") = true := by
                    simp [bne_iff_ne]
                    exact ht2
                  simp [he', hb1, hb2, output_status, hlog]

/-- Witness for C1 as amended: the unsupported-technique row appends
exactly one data line to a non-empty audit file. -/
theorem c1_audit_per_row_witness :
    ({ log := ["x", dataLine (noBeamsArgs unsupRow "BSet")], beamBound := false,
       rands := [] } : DSt).log.length
      = ({ log := ["x"], beamBound := false, rands := [] } : DSt).log.length
          + (if rowAudits unsupRow then 1 else 0) :=
  c1_audit_per_row 1 { log := ["x"], beamBound := false, rands := [] } unsupRow
    { log := ["x", dataLine (noBeamsArgs unsupRow "BSet")], beamBound := false, rands := [] }
    (by rfl) (by decide)

/-! ## C2 -/

/-- A row whose template technique is `TomoHelical` and whose resolved
beam list has two beams. -/
def tomo2Row : RowIn := { baseRow with technique := "TomoHelical", numBeams := 2 }

/-- Evaluation of the code at the failing input for C2.  On a fresh run
the multi-beam `TomoHelical` row makes the whole batch crash with no
audit record (the `place_tomo_beam_in_beamset` call at line 377 sits
outside the `else` and reads the never-bound local `beam`, a
`NameError`); and when an earlier row already bound `beam` (line 376),
the call places that stale beam, `beams_load` is set to `True`
(line 380), and the row finishes with no audit record either — instead
of the claimed skip with `beams_load` false plus an audit record. -/
theorem c2_failing_eval :
    runMain 1 [] [tomo2Row] = .crashed []
      ∧ runRows 1 { log := [], beamBound := true, rands := [] } [tomo2Row] = .done [] := by
  constructor
  · rfl
  · rfl

/-! ## C6 -/

/-- A row whose template resolution raises (template not found). -/
def tmplRow : RowIn := { baseRow with templateRaises := true }

/-- Counterexample to C6: a template-resolution failure in row 1 crashes
the whole run — row 2 is never attempted (the run output carries an
empty audit file), although row 2 on its own would write its audit
record and finish. -/
theorem c6_counterexample :
    runMain 1 [] [tmplRow, failRow] = .crashed []
      ∧ runMain 1 [] [failRow]
          = .done [headerLine, dataLine (errArgs failRow ["Case Case1 not found"])] := by
  constructor
  · rfl
  · rfl

/-- C6 as amended: failures signalled through the entity resolver's
error list are row-terminal — the driver audits the row and goes on to
process the remaining rows — but an exception escaping template
resolution aborts the whole batch: the run result is `crashed` and is
the same whatever rows follow, so those rows are never attempted. -/
theorem c6_row_isolation_amended (fuel : Nat) (st : DSt) (r : RowIn) (rest : List RowIn)
    (pd : PatientData)
    (hld : load_patient_data r.db r.patientId r.firstName r.lastName r.caseName r.examName r.planName = .ok pd) :
    (pd.error ≠ [] →
      runRows fuel st (r :: rest)
        = runRows fuel { st with log := output_status st.log (errArgs r pd.error) } rest)
      ∧ (∀ nm rands', pd.error = [] →
          resolveBeamsetName fuel r.existingBeamsets st.rands r.beamsetName = some (nm, rands') →
          r.templateRaises = true →
          runRows fuel st (r :: rest) = .crashed st.log
            ∧ runRows fuel st (r :: rest) = runRows fuel st [r]) := by
  constructor
  · intro he
    have hp : processRow fuel st r
        = .next { st with log := output_status st.log (errArgs r pd.error) } := by
      unfold processRow
      rw [hld]
      simp [he]
    simp [runRows, hp]
  · intro nm rands' he hnm htpl
    have hp : processRow fuel st r = .crash { st with rands := rands' } := by
      unfold processRow
      rw [hld]
      simp [he, hnm, htpl]
    constructor <;> simp [runRows, hp]

/-- Witness for C6 as amended: the case-lookup-failure row audits and
lets the (empty) remainder of the batch proceed. -/
theorem c6_row_isolation_amended_witness :
    runRows 1 { log := ["x"], beamBound := false, rands := [] } [failRow]
      = runRows 1 { log := ["x", dataLine (errArgs failRow ["Case Case1 not found"])],
                    beamBound := false, rands := [] } [] :=
  (c6_row_isolation_amended 1 { log := ["x"], beamBound := false, rands := [] } failRow []
    { error := ["Case Case1 not found"], patient := true, cse := false, exam := false,
      plan := false } rfl).1 (by decide)

/-! ## C7 -/

/-- A row whose beamset creation raises. -/
def createRow : RowIn := { baseRow with createRaises := true }

/-- Counterexample to C7's subordinate claim that all non-isocenter
failures are terminal only for their row: a beamset-creation exception
in row 1 crashes the whole run and row 2 is never attempted, though on
its own row 2 would audit and finish. -/
theorem c7_counterexample :
    runMain 1 [] [createRow, failRow] = .crashed []
      ∧ runMain 1 [] [failRow]
          = .done [headerLine, dataLine (errArgs failRow ["Case Case1 not found"])] := by
  constructor
  · rfl
  · rfl

/-- C7 as amended: an isocenter-computation failure terminates the whole
run immediately with the diagnostic warning naming the unresolved
target, no audit record is written for the row, and the outcome is the
same whatever rows follow — they are never processed.  (Template and
creation exceptions also abort the batch, so the isocenter case is not
the only batch-fatal failure.) -/
theorem c7_iso_failure_aborts (fuel : Nat) (st : DSt) (r : RowIn) (rest : List RowIn)
    (pd : PatientData) (nm : String) (rands' : List Nat)
    (hld : load_patient_data r.db r.patientId r.firstName r.lastName r.caseName r.examName r.planName = .ok pd)
    (he : pd.error = [])
    (hnm : resolveBeamsetName fuel r.existingBeamsets st.rands r.beamsetName = some (nm, rands'))
    (htpl : r.templateRaises = false) (hcr : r.createRaises = false)
    (hiso : r.isoOk = false) :
    runRows fuel st (r :: rest)
        = .isoFail st.log ("Aborting, could not locate center of " ++ r.isoTarget)
      ∧ runRows fuel st (r :: rest) = runRows fuel st [r] := by
  have hp : processRow fuel st r
      = .isoAbort { st with rands := rands' }
          ("Aborting, could not locate center of " ++ r.isoTarget) := by
    unfold processRow
    rw [hld]
    simp [he, hnm, htpl, hcr, hiso]
  constructor <;> simp [runRows, hp]

/-- A row whose isocenter computation fails. -/
def isoRow : RowIn := { baseRow with isoOk := false }

/-- Witness for C7 as amended, at a concrete one-row batch. -/
theorem c7_iso_failure_aborts_witness :
    runRows 1 { log := ["x"], beamBound := false, rands := [] } [isoRow]
      = .isoFail ["x"] ("Aborting, could not locate center of " ++ "All_PTVs") :=
  (c7_iso_failure_aborts 1 { log := ["x"], beamBound := false, rands := [] } isoRow []
    { error := [], patient := true, cse := true, exam := true, plan := true }
    "BSet" [] rfl rfl rfl rfl rfl rfl).1

/-! ## C5 -/

/-- The two-digit suffix has length two for every draw `randint(1,99)`
can produce (indeed for every value below 100). -/
theorem zfill2_length : ∀ r : Nat, r < 100 → (zfill2 r).length = 2 := by decide

/-- A twenty-character beamset name. -/
def name20 : String := "ABCDEFGHIJKLMNOPQRST"

/-- Counterexample to C5: for a colliding candidate of length 20, the
resolver returns a fresh name of length 16 (the first fourteen
characters plus the two-digit suffix) — not a name of the input length
as the claim states. -/
theorem c5_counterexample :
    resolveBeamsetName 2 [name20] [5] name20 = some ("ABCDEFGHIJKLMN05", [])
      ∧ ("ABCDEFGHIJKLMN05").length = 16 ∧ name20.length = 20 := by
  refine ⟨rfl, rfl, rfl⟩

/-- C5 as amended: if no existing name extends the candidate, the loop
returns the candidate unchanged at once.  If the candidate itself heads
the prefix-query result and its mutation no longer matches anything,
the loop returns the mutated name: a name absent from the existing set,
of length 16 when the input length exceeds 14 (`name[:14]` plus the
two-character suffix — the input length is preserved only when it was
exactly 16) and of input length + 2 otherwise, ending in the two-digit
zero-padded draw.  (When some other name extends a non-colliding
candidate, or when every mutation keeps colliding, the source loop
never terminates — the fuel argument models this.) -/
theorem c5_name_resolver_amended :
    (∀ (fuel : Nat) (existing : List String) (rands : List Nat) (name : String),
        nameMatches existing name = [] →
        resolveBeamsetName (fuel+1) existing rands name = some (name, rands))
      ∧ (∀ (fuel : Nat) (existing : List String) (r : Nat) (rs : List Nat) (name : String)
          (tl : List String),
          nameMatches existing name = name :: tl →
          nameMatches existing (mutateName name r) = [] →
          1 ≤ r → r ≤ 99 →
          resolveBeamsetName (fuel+2) existing (r :: rs) name
              = some (mutateName name r, rs)
            ∧ mutateName name r ∉ existing
            ∧ (mutateName name r).length
                = (if name.length > 14 then 16 else name.length + 2)
            ∧ ∃ p, mutateName name r = p ++ zfill2 r ∧ (zfill2 r).length = 2) := by
  constructor
  · intro fuel existing rands name h
    simp [resolveBeamsetName, h]
  · intro fuel existing r rs name tl h1 h2 hr1 hr99
    refine ⟨?_, ?_, ?_, ?_⟩
    · simp [resolveBeamsetName, h1, h2]
    · intro hmem
      have h3 := List.filter_eq_nil_iff.mp h2 (mutateName name r) hmem
      apply h3
      simp [beginsWith]
    · have hz := zfill2_length r (by omega)
      by_cases h14 : name.length > 14
      · rw [if_pos h14]
        have hm : mutateName name r = strTake name 14 ++ zfill2 r := by
          simp [mutateName, h14]
        rw [hm, String.length_append, hz]
        have ht : (strTake name 14).length = 14 := by
          show (name.data.take 14).length = 14
          rw [List.length_take]
          exact Nat.min_eq_left (Nat.le_of_lt h14)
        omega
      · rw [if_neg h14]
        have hm : mutateName name r = name ++ zfill2 r := by
          simp [mutateName, h14]
        rw [hm, String.length_append, hz]
    · refine ⟨if name.length > 14 then strTake name 14 else name, ?_, zfill2_length r (by omega)⟩
      by_cases h14 : name.length > 14
      · simp [mutateName, h14]
      · simp [mutateName, h14]

/-- Witness for C5 as amended: a concrete collision (`AB` taken) and a
concrete clean mutation (`AB07`). -/
theorem c5_name_resolver_amended_witness :
    resolveBeamsetName 2 ["AB"] [7] "AB" = some (mutateName "AB" 7, [])
      ∧ mutateName "AB" 7 ∉ (["AB"] : List String)
      ∧ (mutateName "AB" 7).length = (if ("AB").length > 14 then 16 else ("AB").length + 2)
      ∧ ∃ p, mutateName "AB" 7 = p ++ zfill2 7 ∧ (zfill2 7).length = 2 :=
  (c5_name_resolver_amended.2 0 ["AB"] 7 [] "AB" [] rfl rfl (by decide) (by decide))

/-! ## C9 -/

/-- An entry of the merged target dict is good when it comes from some
present column pair with a non-NaN (numeric) dose. -/
def goodEntry (row : List (String × Cell)) (kv : Cell × Cell) : Prop :=
  ∃ i dv, 1 ≤ i ∧ List.lookup (tdKey i) row = some (Cell.num dv)
    ∧ List.lookup (tKey i) row = some kv.1 ∧ kv.2 = Cell.num dv

/-- Dict assignment only adds (or overwrites with) the assigned pair. -/
theorem mem_dictInsert {d : List (Cell × Cell)} {k v : Cell} {kv : Cell × Cell}
    (h : kv ∈ dictInsert d k v) : kv ∈ d ∨ kv = (k, v) := by
  unfold dictInsert at h
  split at h
  · obtain ⟨ab, hab, he⟩ := List.mem_map.mp h
    by_cases hk : ab.1 = k
    · right
      rw [if_pos hk] at he
      exact he.symm
    · left
      rw [if_neg hk] at he
      exact he ▸ hab
  · rcases List.mem_append.mp h with h | h
    · exact Or.inl h
    · right
      simpa using h

/-- Loop invariant for `merge_dict`: every entry the loop ever holds is
good, so every entry it returns is good. -/
theorem mergeGo_good (row : List (String × Cell)) :
    ∀ (fuel tc : Nat) (d d' : List (Cell × Cell)),
      (∀ kv ∈ d, goodEntry row kv) →
      mergeGo row fuel tc d = .out d' →
      ∀ kv ∈ d', goodEntry row kv := by
  intro fuel
  induction fuel with
  | zero =>
    intro tc d d' hg h
    simp [mergeGo] at h
  | succ n ih =>
    intro tc d d' hg h
    simp only [mergeGo] at h
    split at h
    · injection h with h
      subst h
      exact hg
    · rename_i dv hdv
      split at h
      · exact absurd h (by simp)
      · exact ih (tc+1) d d' hg h
      · rename_i hnum
        split at h
        · injection h with h
          subst h
          exact hg
        · rename_i nv hnv
          refine ih (tc+1) _ d' ?_ h
          intro kv hkv
          rcases mem_dictInsert hkv with hin | rfl
          · exact hg kv hin
          · obtain ⟨y, rfl⟩ : ∃ y, dv = Cell.num y := by
              cases dv with
              | nan => simp [isnanCell] at hnum
              | num y => exact ⟨y, rfl⟩
              | str s => simp [isnanCell] at hnum
            exact ⟨tc+1, y, by omega, hdv, hnv, rfl⟩

/-- C9 as amended: for a row whose first three target/dose pairs are
present with distinct names and numeric doses and whose `TargetDose04`
column is absent (the loop probes the dose column first, so it is the
missing dose column that stops it), the extraction returns exactly the
three entries; and for every row, every entry of the returned mapping
originates from a present pair with a non-NaN dose — a NaN-dose pair is
never inserted, although the loop continues past it to later pairs. -/
theorem c9_target_merge_amended :
    (∀ (row : List (String × Cell)) (fuel : Nat) (n1 n2 n3 : String) (d1 d2 d3 : Int),
        List.lookup (tdKey 1) row = some (.num d1) →
        List.lookup (tKey 1) row = some (.str n1) →
        List.lookup (tdKey 2) row = some (.num d2) →
        List.lookup (tKey 2) row = some (.str n2) →
        List.lookup (tdKey 3) row = some (.num d3) →
        List.lookup (tKey 3) row = some (.str n3) →
        List.lookup (tdKey 4) row = none →
        n1 ≠ n2 → n1 ≠ n3 → n2 ≠ n3 →
        merge_dict row (fuel+4)
            = .out [(.str n1, .num d1), (.str n2, .num d2), (.str n3, .num d3)]
          ∧ ([(.str n1, .num d1), (.str n2, .num d2),
              (.str n3, .num d3)] : List (Cell × Cell)).length = 3)
      ∧ (∀ (row : List (String × Cell)) (fuel : Nat) (d : List (Cell × Cell)),
          merge_dict row fuel = .out d → ∀ kv ∈ d, goodEntry row kv) := by
  constructor
  · intro row fuel n1 n2 n3 d1 d2 d3 h1 h2 h3 h4 h5 h6 h7 h12 h13 h23
    refine ⟨?_, rfl⟩
    simp [merge_dict, mergeGo, h1, h2, h3, h4, h5, h6, h7, isnanCell, dictInsert,
      Ne.symm h12, Ne.symm h13, Ne.symm h23]
  · intro row fuel d h
    exact mergeGo_good row fuel 0 [] d (by simp) h

/-- The counterexample row for C9: three populated pairs, no `Target04`
column, a NaN `TargetDose04`, and a populated fifth pair. -/
def rowC9 : List (String × Cell) :=
  [("Target01", .str ("PTV1")), ("TargetDose01", .num 6000),
   ("Target02", .str ("PTV2")), ("TargetDose02", .num 5400),
   ("Target03", .str ("PTV3")), ("TargetDose03", .num 5000),
   ("TargetDose04", .nan),
   ("Target05", .str ("PTV5")), ("TargetDose05", .num 4000)]

/-- Counterexample to C9: on a row with Target01..03 fully populated
with distinct names and no `Target04` column, the extraction can still
return four entries — a present-but-NaN `TargetDose04` does not stop
the loop (no `KeyError` is raised), so the populated fifth pair is
reached and inserted. -/
theorem c9_counterexample :
    merge_dict rowC9 6
        = .out [(.str ("PTV1"), .num 6000), (.str ("PTV2"), .num 5400),
                (.str ("PTV3"), .num 5000), (.str ("PTV5"), .num 4000)]
      ∧ List.lookup ("Target04") rowC9 = none
      ∧ ([(.str ("PTV1"), .num 6000), (.str ("PTV2"), .num 5400),
          (.str ("PTV3"), .num 5000),
          (.str ("PTV5"), .num 4000)] : List (Cell × Cell)).length ≠ 3 := by
  refine ⟨rfl, rfl, by decide⟩

/-- The witness row for C9 as amended: exactly three populated pairs. -/
def rowW : List (String × Cell) :=
  [("Target01", .str ("PTV1")), ("TargetDose01", .num 6000),
   ("Target02", .str ("PTV2")), ("TargetDose02", .num 5400),
   ("Target03", .str ("PTV3")), ("TargetDose03", .num 5000)]

/-- Witness for C9 as amended at the concrete three-pair row. -/
theorem c9_target_merge_amended_witness :
    merge_dict rowW 4
        = .out [(.str ("PTV1"), .num 6000), (.str ("PTV2"), .num 5400),
                (.str ("PTV3"), .num 5000)]
      ∧ ([(.str ("PTV1"), .num 6000), (.str ("PTV2"), .num 5400),
          (.str ("PTV3"), .num 5000)] : List (Cell × Cell)).length = 3 :=
  c9_target_merge_amended.1 rowW 0 "PTV1" "PTV2" "PTV3" 6000 5400 5000
    rfl rfl rfl rfl rfl rfl rfl (by decide) (by decide) (by decide)
